import Mathlib

/-!
Shallow embedding of the MAG workflow generator
(src/workflow_generator.py) and proofs about its graph-assembly
behaviour.  The Python code builds a Pegasus workflow: for each sample
it emits a chain of jobs (fastqc, fastp, assembler, quast, prodigal,
optional binning sub-chain) and finally one multiqc aggregation job
whose inputs are the accumulated QC files.  Jobs are modelled as
records of tool name, argument list (Pegasus `File` arguments are
represented by their logical file names), input file names, output
file names with their stage-out flag, and per-job Pegasus profiles.
-/

namespace MagWorkflow

/-- A parsed sample record, as produced by `parse_samplesheet` /
`download_test_data` (the dict with keys id, fastq_1, fastq_2, group,
single_end). -/
structure Sample where
  id : String
  fastq_1 : String
  fastq_2 : String
  group : String
  single_end : Bool
deriving DecidableEq, Repr

/-- One Pegasus job as built by `create_workflow`: tool (transformation)
name, resolved argument list, input artifact names, output artifact
names each with its stage-out flag, and per-job profiles as
(namespace, key, value) triples. -/
structure Job where
  tool : String
  args : List String
  inputs : List String
  outputs : List (String × Bool)
  profiles : List (String × String × String)
deriving DecidableEq, Repr

/-- The keyword parameters of `create_workflow` (assembler choice, the
four skip flags, and the two optional database paths).  The field
`skip_annot` models the Python parameter `skip_annotation`. -/
structure PipelineConfig where
  assembler : String
  skip_binning : Bool
  skip_taxonomy : Bool
  skip_annot : Bool
  skip_fastqc : Bool
  gtdbtk_db : Option String
  checkm2_db : Option String
deriving DecidableEq, Repr

/-- The `TOOL_CONFIGS` table (src/workflow_generator.py lines 68-80):
tool name, memory string, core count.  These feed the transformation
catalog profiles, not the per-job profiles. -/
def TOOL_CONFIGS : List (String × String × Nat) :=
  [("fastqc", "2GB", 2),
   ("fastp", "4GB", 4),
   ("megahit", "16GB", 8),
   ("spades", "32GB", 16),
   ("quast", "4GB", 4),
   ("prodigal", "4GB", 1),
   ("metabat2", "8GB", 4),
   ("checkm2", "16GB", 8),
   ("gtdbtk", "64GB", 8),
   ("prokka", "8GB", 4),
   ("multiqc", "4GB", 2)]

/-- The jobs emitted for one sample by the body of the sample loop of
`create_workflow` (src/workflow_generator.py lines 322-562), in
construction order. -/
def sampleJobs (cfg : PipelineConfig) (sample : Sample) : List Job :=
  let sample_id := sample.id
  let is_paired := !sample.single_end
  let r1_input := sample_id ++ "_R1.fastq.gz"
  let r2_input := sample_id ++ "_R2.fastq.gz"
  -- Step 1: FastQC on the raw reads
  let fastqc_jobs : List Job :=
    if !cfg.skip_fastqc then
      if is_paired then
        [{ tool := "fastqc",
           args := ["--outdir", ".", "--threads", "2"],
           inputs := [r1_input, r2_input],
           outputs := [(sample_id ++ "_R1_fastqc.html", true),
                       (sample_id ++ "_R1_fastqc.zip", true),
                       (sample_id ++ "_R2_fastqc.html", true),
                       (sample_id ++ "_R2_fastqc.zip", true)],
           profiles := [] }]
      else
        [{ tool := "fastqc",
           args := ["--outdir", ".", "--threads", "2"],
           inputs := [r1_input],
           outputs := [(sample_id ++ "_R1_fastqc.html", true),
                       (sample_id ++ "_R1_fastqc.zip", true)],
           profiles := [] }]
    else []
  -- Step 2: fastp trimming (always on the raw reads)
  let trimmed_r1 := sample_id ++ "_trimmed_R1.fastq.gz"
  let trimmed_r2 := sample_id ++ "_trimmed_R2.fastq.gz"
  let fastp_json := sample_id ++ "_fastp.json"
  let fastp_html := sample_id ++ "_fastp.html"
  let fastp_base_args : List String :=
    ["-i", r1_input, "-o", trimmed_r1, "--json", fastp_json,
     "--html", fastp_html, "--thread", "4",
     "--qualified_quality_phred", "20", "--length_required", "50"]
  let fastp_job : Job :=
    if is_paired then
      { tool := "fastp",
        args := fastp_base_args ++ ["-I", r2_input, "-O", trimmed_r2],
        inputs := [r1_input, r2_input],
        outputs := [(trimmed_r1, true), (fastp_json, true),
                    (fastp_html, true), (trimmed_r2, true)],
        profiles := [] }
    else
      { tool := "fastp",
        args := fastp_base_args,
        inputs := [r1_input],
        outputs := [(trimmed_r1, true), (fastp_json, true),
                    (fastp_html, true)],
        profiles := [] }
  -- Step 3: assembly (MEGAHIT or SPAdes); line 430 attaches the same
  -- per-job memory profile in every branch
  let contigs := sample_id ++ "_contigs.fa"
  let assembly_log := sample_id ++ "_assembly.log"
  let assembly_job : Job :=
    if cfg.assembler == "megahit" then
      if is_paired then
        { tool := "megahit",
          args := ["-1", trimmed_r1, "-2", trimmed_r2,
                   "-o", sample_id ++ "_megahit", "-t", "8",
                   "--min-contig-len", "1000"],
          inputs := [trimmed_r1, trimmed_r2],
          outputs := [(contigs, true), (assembly_log, true)],
          profiles := [("pegasus", "memory", "16GB")] }
      else
        { tool := "megahit",
          args := ["-r", trimmed_r1, "-o", sample_id ++ "_megahit",
                   "-t", "8", "--min-contig-len", "1000"],
          inputs := [trimmed_r1],
          outputs := [(contigs, true), (assembly_log, true)],
          profiles := [("pegasus", "memory", "16GB")] }
    else
      if is_paired then
        { tool := "spades",
          args := ["-1", trimmed_r1, "-2", trimmed_r2,
                   "-o", sample_id ++ "_spades", "-t", "16", "--meta"],
          inputs := [trimmed_r1, trimmed_r2],
          outputs := [(contigs, true), (assembly_log, true)],
          profiles := [("pegasus", "memory", "16GB")] }
      else
        { tool := "spades",
          args := ["-s", trimmed_r1, "-o", sample_id ++ "_spades",
                   "-t", "16", "--meta"],
          inputs := [trimmed_r1],
          outputs := [(contigs, true), (assembly_log, true)],
          profiles := [("pegasus", "memory", "16GB")] }
  -- Step 4: QUAST
  let quast_report := sample_id ++ "_quast_report.tsv"
  let quast_job : Job :=
    { tool := "quast",
      args := [contigs, "-o", sample_id ++ "_quast",
               "--min-contig", "1000", "--threads", "4"],
      inputs := [contigs],
      outputs := [(quast_report, true),
                  (sample_id ++ "_quast_report.html", true)],
      profiles := [] }
  -- Step 5: Prodigal
  let genes_faa := sample_id ++ "_genes.faa"
  let genes_gff := sample_id ++ "_genes.gff"
  let prodigal_job : Job :=
    { tool := "prodigal",
      args := ["-i", contigs, "-a", genes_faa, "-o", genes_gff,
               "-f", "gff", "-p", "meta"],
      inputs := [contigs],
      outputs := [(genes_faa, true), (genes_gff, true)],
      profiles := [] }
  -- Steps 6-9: binning sub-chain, only when binning is enabled
  let bins_dir := sample_id ++ "_bins"
  let depth_file := sample_id ++ "_depth.txt"
  let checkm2_report := sample_id ++ "_checkm2_quality.tsv"
  let binning_jobs : List Job :=
    if !cfg.skip_binning then
      let depth_job : Job :=
        { tool := "metabat2",
          args := ["jgi_summarize_bam_contig_depths",
                   "--outputDepth", depth_file, contigs],
          inputs := [contigs],
          outputs := [(depth_file, true)],
          profiles := [] }
      let metabat_job : Job :=
        { tool := "metabat2",
          args := ["-i", contigs, "-a", depth_file,
                   "-o", sample_id ++ "_bins/bin", "-m", "1500",
                   "-t", "4"],
          inputs := [contigs, depth_file],
          outputs := [(bins_dir, true)],
          profiles := [] }
      let checkm2_job : Job :=
        { tool := "checkm2",
          args := ["predict", "--input", bins_dir,
                   "--output-directory", sample_id ++ "_checkm2",
                   "--threads", "8"] ++
            (match cfg.checkm2_db with
             | some db => ["--database_path", db]
             | none => []),
          inputs := [bins_dir],
          outputs := [(checkm2_report, true)],
          profiles := [] }
      let gtdbtk_jobs : List Job :=
        if !cfg.skip_taxonomy then
          [{ tool := "gtdbtk",
             args := ["classify_wf", "--genome_dir", bins_dir,
                      "--out_dir", sample_id ++ "_gtdbtk",
                      "--extension", "fa", "--cpus", "8"] ++
               (match cfg.gtdbtk_db with
                | some db => ["--gtdbtk_data_path", db]
                | none => []),
             inputs := [bins_dir, checkm2_report],
             outputs := [(sample_id ++ "_gtdbtk.summary.tsv", true)],
             profiles := [("pegasus", "memory", "64GB")] }]
        else []
      let prokka_jobs : List Job :=
        if !cfg.skip_annot then
          [{ tool := "prokka",
             args := ["--outdir", sample_id ++ "_prokka",
                      "--prefix", sample_id, "--metagenome",
                      "--cpus", "4", bins_dir],
             inputs := [bins_dir],
             outputs := [(sample_id ++ "_prokka.gff", true),
                         (sample_id ++ "_prokka.gbk", true),
                         (sample_id ++ "_prokka.faa", true)],
             profiles := [] }]
        else []
      [depth_job, metabat_job, checkm2_job] ++ gtdbtk_jobs ++ prokka_jobs
    else []
  fastqc_jobs ++ [fastp_job, assembly_job, quast_job, prodigal_job] ++
    binning_jobs

/-- The QC files one sample contributes to `all_qc_files`, in the order
the Python code appends them: fastqc zip(s) (step 1), fastp JSON
(line 381), quast TSV report (line 450), checkm2 quality TSV
(line 521, only when binning runs). -/
def sampleQcFiles (cfg : PipelineConfig) (sample : Sample) : List String :=
  let sample_id := sample.id
  let is_paired := !sample.single_end
  let fastqc_qc : List String :=
    if !cfg.skip_fastqc then
      if is_paired then
        [sample_id ++ "_R1_fastqc.zip", sample_id ++ "_R2_fastqc.zip"]
      else
        [sample_id ++ "_R1_fastqc.zip"]
    else []
  let binning_qc : List String :=
    if !cfg.skip_binning then [sample_id ++ "_checkm2_quality.tsv"]
    else []
  fastqc_qc ++ [sample_id ++ "_fastp.json",
                sample_id ++ "_quast_report.tsv"] ++ binning_qc

/-- The accumulated `all_qc_files` list over all samples, in input
sample order. -/
def allQcFiles (cfg : PipelineConfig) (samples : List Sample) :
    List String :=
  samples.flatMap (sampleQcFiles cfg)

/-- The terminal MultiQC job (src/workflow_generator.py lines 564-579),
built unconditionally with the accumulated QC files as inputs. -/
def multiqcJob (all_qc_files : List String) : Job :=
  { tool := "multiqc",
    args := [".", "-o", "multiqc_output", "--force"],
    inputs := all_qc_files,
    outputs := [("multiqc_report.html", true),
                ("multiqc_data.json", true)],
    profiles := [] }

/-- `create_workflow` (src/workflow_generator.py lines 269-581): the
full job list of the generated workflow, in construction order — every
sample's chain in input order, then the single multiqc job. -/
def create_workflow (samples : List Sample) (cfg : PipelineConfig) :
    List Job :=
  samples.flatMap (sampleJobs cfg) ++ [multiqcJob (allQcFiles cfg samples)]

/-- Output artifact names of a job. -/
def outputNames (j : Job) : List String := j.outputs.map Prod.fst

/-- Dependency edge of the generated DAG: job `j1` precedes job `j2`
when `j2` consumes an artifact `j1` produces. -/
def Edge (j1 j2 : Job) : Prop :=
  ∃ a, a ∈ outputNames j1 ∧ a ∈ j2.inputs

/-- The Pegasus API's `Job.add_inputs` applied in a loop: each file is
added as an input of the job, and a DuplicateError is raised when the
file is already an input of that job (the Pegasus `add_inputs`
docstring: all input files must be unique).  This models the multiqc
input loop of src/workflow_generator.py lines 576-577, the one
`add_inputs` site that is fed an accumulated cross-sample list and so
can actually see a repeated logical file name; every per-sample job
adds a fixed list of pairwise-distinct names. -/
def addInputsList (j : Job) : List String → Except String Job
  | [] => Except.ok j
  | f :: fs =>
      if f ∈ j.inputs then Except.error ("DuplicateError: " ++ f)
      else addInputsList { j with inputs := j.inputs ++ [f] } fs

/-- The terminal MultiQC job built through the Pegasus `add_inputs`
loop, with its DuplicateError path: fails when the accumulated QC list
repeats a logical file name. -/
def multiqcJobE (all_qc_files : List String) : Except String Job :=
  addInputsList
    { tool := "multiqc",
      args := [".", "-o", "multiqc_output", "--force"],
      inputs := [],
      outputs := [("multiqc_report.html", true),
                  ("multiqc_data.json", true)],
      profiles := [] }
    all_qc_files

/-- `create_workflow` including the Pegasus error path: when the
multiqc `add_inputs` loop raises a DuplicateError (a repeated QC
artifact name, which happens exactly when input samples share an id),
the exception propagates and no workflow object is returned; otherwise
the result is the job list of `create_workflow`. -/
def create_workflowE (samples : List Sample) (cfg : PipelineConfig) :
    Except String (List Job) :=
  (multiqcJobE (allQcFiles cfg samples)).map
    (fun mq => samples.flatMap (sampleJobs cfg) ++ [mq])

/-- One CSV row as seen by `parse_samplesheet`; `none` models a column
key absent from the DictReader row (so `row.get` falls back to its
default). -/
structure Row where
  sample : Option String := none
  id : Option String := none
  fastq_1 : Option String := none
  R1 : Option String := none
  fastq_2 : Option String := none
  R2 : Option String := none
  group : Option String := none
  single_end : Option String := none
deriving DecidableEq, Repr

/-- Character-wise ASCII lowercasing, modelling the Python str.lower
call on the single_end field (structurally recursive over the char
list, so it evaluates inside proofs). -/
def strLower (s : String) : String :=
  String.mk (s.data.map Char.toLower)

/-- The per-row sample dict built inside `parse_samplesheet`
(src/workflow_generator.py lines 95-101). -/
def parseRow (r : Row) : Sample :=
  { id := r.sample.getD (r.id.getD ""),
    fastq_1 := r.fastq_1.getD (r.R1.getD ""),
    fastq_2 := r.fastq_2.getD (r.R2.getD ""),
    group := r.group.getD "default",
    single_end := strLower (r.single_end.getD "false") == "true" }

/-- `parse_samplesheet` (src/workflow_generator.py lines 83-104): parse
every row and keep only those whose id and forward-read fields are
non-empty (the Python truthiness guard `if sample ... and ...`). -/
def parse_samplesheet (rows : List Row) : List Sample :=
  (rows.map parseRow).filter (fun s => s.id != "" && s.fastq_1 != "")

/-! Concrete fixtures used by the closed (counterexample and witness)
theorems below. -/

/-- A paired-end sample named s1. -/
def samplePaired : Sample :=
  { id := "s1", fastq_1 := "data/s1_R1.fastq.gz",
    fastq_2 := "data/s1_R2.fastq.gz", group := "default",
    single_end := false }

/-- A single-end sample named s1. -/
def sampleSingle : Sample :=
  { id := "s1", fastq_1 := "data/s1_R1.fastq.gz", fastq_2 := "",
    group := "default", single_end := true }

/-- A sample not flagged single-end whose reverse-read field is empty
(missing fastq_2). -/
def sampleNoR2 : Sample :=
  { id := "s1", fastq_1 := "data/s1_R1.fastq.gz", fastq_2 := "",
    group := "default", single_end := false }

/-- A second, distinct sample record that also carries the id s1. -/
def samplePairedDup : Sample :=
  { id := "s1", fastq_1 := "data/other_R1.fastq.gz",
    fastq_2 := "data/other_R2.fastq.gz", group := "g2",
    single_end := false }

/-- The default configuration of `create_workflow` (megahit, nothing
skipped, no database paths). -/
def defaultConfig : PipelineConfig :=
  { assembler := "megahit", skip_binning := false,
    skip_taxonomy := false, skip_annot := false, skip_fastqc := false,
    gtdbtk_db := none, checkm2_db := none }

/-- Default configuration with the spades assembler selected. -/
def spadesConfig : PipelineConfig :=
  { defaultConfig with assembler := "spades" }

/-- Configuration of the C4 scenario: megahit, taxonomy and annotation
skipped, binning and fastqc enabled. -/
def configC4 : PipelineConfig :=
  { defaultConfig with skip_taxonomy := true, skip_annot := true }

/-- Configuration with binning skipped while the taxonomy and
annotation flags are left enabled. -/
def skipBinningConfig : PipelineConfig :=
  { defaultConfig with skip_binning := true }

/-- Predicate selecting the binning sub-stage jobs (checkm2, gtdbtk,
prokka). -/
def isBinStageJob (j : Job) : Bool :=
  j.tool == "checkm2" || j.tool == "gtdbtk" || j.tool == "prokka"

/-- Boolean form of `Edge`. -/
def edgeB (j1 j2 : Job) : Bool :=
  (outputNames j1).any (fun a => j2.inputs.contains a)

/-- The derived edge set of a generated workflow: all (producer,
consumer) job pairs connected by an artifact. -/
def edgeList (w : List Job) : List (Job × Job) :=
  w.flatMap (fun a => (w.filter (edgeB a)).map (fun b => (a, b)))

/-! Samplesheet row fixtures exercising the `single_end` parsing rule
and the silent dropping of incomplete rows. -/

/-- Row with single_end given as the exact string true. -/
def rowTrue : Row :=
  { sample := some "a", fastq_1 := some "a1.fq", single_end := some "true" }

/-- Row with single_end given in upper case. -/
def rowUpper : Row :=
  { sample := some "b", fastq_1 := some "b1.fq", single_end := some "TRUE" }

/-- Row with single_end given as 1. -/
def rowOne : Row :=
  { sample := some "c", fastq_1 := some "c1.fq", single_end := some "1" }

/-- Row with single_end given as yes. -/
def rowYes : Row :=
  { sample := some "d", fastq_1 := some "d1.fq", single_end := some "yes" }

/-- Row with single_end carrying a trailing space. -/
def rowTrailing : Row :=
  { sample := some "e", fastq_1 := some "e1.fq", single_end := some "TRUE " }

/-- Row with no single_end column at all. -/
def rowMissing : Row :=
  { sample := some "f", fastq_1 := some "f1.fq" }

/-- Row with an empty single_end value. -/
def rowEmptySE : Row :=
  { sample := some "g", fastq_1 := some "g1.fq", single_end := some "" }

/-- Row with an empty sample id. -/
def rowNoId : Row :=
  { sample := some "", fastq_1 := some "x1.fq", single_end := some "true" }

/-- Row with an empty forward-read field. -/
def rowNoFq : Row :=
  { sample := some "h", fastq_1 := some "", single_end := some "true" }

/-!  Helper lemmas shared by the claim theorems.  -/

theorem sampleJobs_no_multiqc (cfg : PipelineConfig) (s : Sample) :
    (sampleJobs cfg s).countP (fun j => j.tool == "multiqc") = 0 := by
  obtain ⟨asm, sb, st, sa, sf, gdb, cdb⟩ := cfg
  cases sb <;> cases st <;> cases sa <;> cases sf <;>
    cases hp : s.single_end <;>
    cases hm : (asm == "megahit") <;>
    simp only [sampleJobs, hp, hm] <;> rfl

theorem sampleJobs_skip_binning (cfg : PipelineConfig) (s : Sample)
    (h : cfg.skip_binning = true) :
    (sampleJobs cfg s).countP isBinStageJob = 0 := by
  obtain ⟨asm, sb, st, sa, sf, gdb, cdb⟩ := cfg
  simp only at h
  subst h
  cases st <;> cases sa <;> cases sf <;>
    cases hp : s.single_end <;>
    cases hm : (asm == "megahit") <;>
    simp only [sampleJobs, hp, hm] <;> rfl

theorem mem_create_workflow_of_mem_sampleJobs {samples : List Sample}
    {cfg : PipelineConfig} {s : Sample} {j : Job}
    (hs : s ∈ samples) (hj : j ∈ sampleJobs cfg s) :
    j ∈ create_workflow samples cfg :=
  List.mem_append_left _ (List.mem_flatMap.mpr ⟨s, hs, hj⟩)

theorem sampleJobs_gtdbtk_mem (cfg : PipelineConfig) (s : Sample)
    (hb : cfg.skip_binning = false) (ht : cfg.skip_taxonomy = false) :
    ∃ jc ∈ sampleJobs cfg s, ∃ jg ∈ sampleJobs cfg s,
      jc.tool = "checkm2" ∧ jg.tool = "gtdbtk" ∧
      (s.id ++ "_bins") ∈ jg.inputs ∧
      (s.id ++ "_checkm2_quality.tsv") ∈ jg.inputs ∧
      (s.id ++ "_checkm2_quality.tsv") ∈ outputNames jc := by
  obtain ⟨asm, sb, st, sa, sf, gdb, cdb⟩ := cfg
  simp only at hb ht
  subst hb; subst ht
  refine ⟨
    { tool := "checkm2",
      args := ["predict", "--input", s.id ++ "_bins",
               "--output-directory", s.id ++ "_checkm2",
               "--threads", "8"] ++
        (match cdb with
         | some db => ["--database_path", db]
         | none => []),
      inputs := [s.id ++ "_bins"],
      outputs := [(s.id ++ "_checkm2_quality.tsv", true)],
      profiles := [] }, ?_,
    { tool := "gtdbtk",
      args := ["classify_wf", "--genome_dir", s.id ++ "_bins",
               "--out_dir", s.id ++ "_gtdbtk",
               "--extension", "fa", "--cpus", "8"] ++
        (match gdb with
         | some db => ["--gtdbtk_data_path", db]
         | none => []),
      inputs := [s.id ++ "_bins", s.id ++ "_checkm2_quality.tsv"],
      outputs := [(s.id ++ "_gtdbtk.summary.tsv", true)],
      profiles := [("pegasus", "memory", "64GB")] }, ?_,
    rfl, rfl, by simp, by simp, by simp [outputNames]⟩ <;>
  · simp only [sampleJobs]
    cases sa <;> cases sf <;>
      cases hp : s.single_end <;>
      by_cases hm : asm == "megahit" <;>
      simp [hp, hm]

theorem sampleJobs_paired_mode (cfg : PipelineConfig) (s : Sample)
    (h : s.single_end = false) :
    (∃ jf ∈ sampleJobs cfg s, jf.tool = "fastp" ∧ "-I" ∈ jf.args ∧
      "-O" ∈ jf.args ∧ (s.id ++ "_R2.fastq.gz") ∈ jf.inputs) ∧
    (∃ ja ∈ sampleJobs cfg s, (ja.tool = "megahit" ∨ ja.tool = "spades") ∧
      "-2" ∈ ja.args ∧ (s.id ++ "_trimmed_R2.fastq.gz") ∈ ja.inputs) := by
  obtain ⟨asm, sb, st, sa, sf, gdb, cdb⟩ := cfg
  constructor
  · refine ⟨
      { tool := "fastp",
        args := ["-i", s.id ++ "_R1.fastq.gz",
                 "-o", s.id ++ "_trimmed_R1.fastq.gz",
                 "--json", s.id ++ "_fastp.json",
                 "--html", s.id ++ "_fastp.html", "--thread", "4",
                 "--qualified_quality_phred", "20",
                 "--length_required", "50"] ++
          ["-I", s.id ++ "_R2.fastq.gz",
           "-O", s.id ++ "_trimmed_R2.fastq.gz"],
        inputs := [s.id ++ "_R1.fastq.gz", s.id ++ "_R2.fastq.gz"],
        outputs := [(s.id ++ "_trimmed_R1.fastq.gz", true),
                    (s.id ++ "_fastp.json", true),
                    (s.id ++ "_fastp.html", true),
                    (s.id ++ "_trimmed_R2.fastq.gz", true)],
        profiles := [] }, ?_, rfl, by simp, by simp, by simp⟩
    simp only [sampleJobs, h]
    cases sb <;> cases st <;> cases sa <;> cases sf <;>
      by_cases hm : asm == "megahit" <;> simp [hm]
  · by_cases hm : (asm == "megahit") = true
    · refine ⟨
        { tool := "megahit",
          args := ["-1", s.id ++ "_trimmed_R1.fastq.gz",
                   "-2", s.id ++ "_trimmed_R2.fastq.gz",
                   "-o", s.id ++ "_megahit", "-t", "8",
                   "--min-contig-len", "1000"],
          inputs := [s.id ++ "_trimmed_R1.fastq.gz",
                     s.id ++ "_trimmed_R2.fastq.gz"],
          outputs := [(s.id ++ "_contigs.fa", true),
                      (s.id ++ "_assembly.log", true)],
          profiles := [("pegasus", "memory", "16GB")] }, ?_,
        Or.inl rfl, by simp, by simp⟩
      simp only [sampleJobs, h]
      cases sb <;> cases st <;> cases sa <;> cases sf <;> simp [hm]
    · refine ⟨
        { tool := "spades",
          args := ["-1", s.id ++ "_trimmed_R1.fastq.gz",
                   "-2", s.id ++ "_trimmed_R2.fastq.gz",
                   "-o", s.id ++ "_spades", "-t", "16", "--meta"],
          inputs := [s.id ++ "_trimmed_R1.fastq.gz",
                     s.id ++ "_trimmed_R2.fastq.gz"],
          outputs := [(s.id ++ "_contigs.fa", true),
                      (s.id ++ "_assembly.log", true)],
          profiles := [("pegasus", "memory", "16GB")] }, ?_,
        Or.inr rfl, by simp, by simp⟩
      simp only [sampleJobs, h]
      cases sb <;> cases st <;> cases sa <;> cases sf <;> simp [hm]

theorem fastp_json_mem_sampleQcFiles (cfg : PipelineConfig)
    (s : Sample) : (s.id ++ "_fastp.json") ∈ sampleQcFiles cfg s := by
  simp [sampleQcFiles]

theorem not_nodup_allQcFiles_of_dup_ids (cfg : PipelineConfig) :
    ∀ samples : List Sample, ¬ (samples.map Sample.id).Nodup →
      ¬ (allQcFiles cfg samples).Nodup := by
  intro samples
  induction samples with
  | nil => intro h; exact absurd List.nodup_nil h
  | cons s rest ih =>
      intro h hnd
      rw [List.map_cons, List.nodup_cons] at h
      have hnd' :
          (sampleQcFiles cfg s).Nodup ∧
            (allQcFiles cfg rest).Nodup ∧
            (sampleQcFiles cfg s).Disjoint (allQcFiles cfg rest) := by
        have : allQcFiles cfg (s :: rest) =
            sampleQcFiles cfg s ++ allQcFiles cfg rest := rfl
        rw [this, List.nodup_append] at hnd
        exact hnd
      by_cases hmem : s.id ∈ rest.map Sample.id
      · obtain ⟨s', hs', hid⟩ := List.mem_map.mp hmem
        have h1 : (s.id ++ "_fastp.json") ∈ sampleQcFiles cfg s :=
          fastp_json_mem_sampleQcFiles cfg s
        have h2 : (s.id ++ "_fastp.json") ∈ allQcFiles cfg rest := by
          refine List.mem_flatMap.mpr ⟨s', hs', ?_⟩
          rw [← hid]
          exact fastp_json_mem_sampleQcFiles cfg s'
        exact hnd'.2.2 h1 h2
      · exact ih (fun hr => h ⟨hmem, hr⟩) hnd'.2.1

theorem addInputsList_error_of_mem :
    ∀ (files : List String) (j : Job) (f : String),
      f ∈ files → f ∈ j.inputs →
      ∃ e, addInputsList j files =
        Except.error ("DuplicateError: " ++ e) := by
  intro files
  induction files with
  | nil => intro j f hf _; cases hf
  | cons g fs ih =>
      intro j f hf hj
      by_cases hin : g ∈ j.inputs
      · exact ⟨g, by simp [addInputsList, hin]⟩
      · rcases List.mem_cons.mp hf with rfl | hf'
        · exact absurd hj hin
        · obtain ⟨e, he⟩ := ih { j with inputs := j.inputs ++ [g] } f
            hf' (List.mem_append_left _ hj)
          exact ⟨e, by simp [addInputsList, hin, he]⟩

theorem addInputsList_error_of_not_nodup :
    ∀ (files : List String) (j : Job), ¬ files.Nodup →
      ∃ e, addInputsList j files =
        Except.error ("DuplicateError: " ++ e) := by
  intro files
  induction files with
  | nil => intro j h; exact absurd List.nodup_nil h
  | cons g fs ih =>
      intro j h
      by_cases hin : g ∈ j.inputs
      · exact ⟨g, by simp [addInputsList, hin]⟩
      · by_cases hg : g ∈ fs
        · obtain ⟨e, he⟩ := addInputsList_error_of_mem fs
            { j with inputs := j.inputs ++ [g] } g hg (by simp)
          exact ⟨e, by simp [addInputsList, hin, he]⟩
        · have hfs : ¬ fs.Nodup := fun hnd =>
            h (List.nodup_cons.mpr ⟨hg, hnd⟩)
          obtain ⟨e, he⟩ := ih { j with inputs := j.inputs ++ [g] } hfs
          exact ⟨e, by simp [addInputsList, hin, he]⟩

theorem addInputsList_ok_of_nodup :
    ∀ (files : List String) (j : Job), files.Nodup →
      (∀ f ∈ files, f ∉ j.inputs) →
      addInputsList j files =
        Except.ok { j with inputs := j.inputs ++ files } := by
  intro files
  induction files with
  | nil => intro j _ _; simp [addInputsList]
  | cons g fs ih =>
      intro j hnd hdisj
      rw [List.nodup_cons] at hnd
      have hgin : g ∉ j.inputs := hdisj g (List.mem_cons_self g fs)
      have hrest : ∀ f ∈ fs, f ∉ ({ j with inputs := j.inputs ++ [g] } :
          Job).inputs := by
        intro f hf
        simp only [List.mem_append, List.mem_singleton, not_or]
        exact ⟨hdisj f (List.mem_cons_of_mem g hf),
          fun hfg => hnd.1 (hfg ▸ hf)⟩
      rw [addInputsList, if_neg hgin, ih _ hnd.2 hrest]
      simp

/-- On every input whose accumulated QC list is duplicate-free (in
particular every duplicate-id-free sample list), the fallible
`create_workflowE` succeeds and returns exactly the graph of
`create_workflow`. -/
theorem create_workflowE_eq_ok (samples : List Sample)
    (cfg : PipelineConfig) (h : (allQcFiles cfg samples).Nodup) :
    create_workflowE samples cfg =
      Except.ok (create_workflow samples cfg) := by
  rw [create_workflowE, multiqcJobE,
    addInputsList_ok_of_nodup _ _ h (by simp)]
  rfl

/-!  Claim theorems.  -/

/-- C1 counterexample: with an empty sample list there are zero QC
artifacts, yet `create_workflow` still creates the multiqc JobNode, so
the claim that the graph then contains no multiqc job is false. -/
theorem multiqc_created_without_qc_cex :
    allQcFiles defaultConfig [] = [] ∧
    ∃ j ∈ create_workflow [] defaultConfig, j.tool = "multiqc" := by
  decide

/-- C1 (amended): in every run with zero QC artifacts the terminal
multiqc JobNode is still created, with an empty input list; the code
has no EmptyAggregation warning or validation report. -/
theorem multiqc_created_even_when_no_qc (samples : List Sample)
    (cfg : PipelineConfig) (h : allQcFiles cfg samples = []) :
    multiqcJob (allQcFiles cfg samples) ∈ create_workflow samples cfg ∧
    (multiqcJob (allQcFiles cfg samples)).inputs = [] ∧
    (create_workflow samples cfg).countP
      (fun j => j.tool == "multiqc") = 1 := by
  refine ⟨?_, ?_, ?_⟩
  · simp [create_workflow]
  · simp [multiqcJob, h]
  · have hflat : ∀ ss : List Sample,
        (ss.flatMap (sampleJobs cfg)).countP
          (fun j => j.tool == "multiqc") = 0 := by
      intro ss
      induction ss with
      | nil => rfl
      | cons s rest ih =>
          rw [List.flatMap_cons, List.countP_append, ih,
            sampleJobs_no_multiqc cfg s]
    simp only [create_workflow, List.countP_append, hflat]
    rfl

/-- C1 witness: the amended claim instantiated at the empty sample
list. -/
theorem multiqc_created_even_when_no_qc_witness :
    multiqcJob (allQcFiles defaultConfig []) ∈
      create_workflow [] defaultConfig ∧
    (multiqcJob (allQcFiles defaultConfig [])).inputs = [] ∧
    (create_workflow [] defaultConfig).countP
      (fun j => j.tool == "multiqc") = 1 :=
  multiqc_created_even_when_no_qc [] defaultConfig rfl

/-- C2: evaluation at the failing input.  The spades assembly job
carries the per-job profile memory=16GB and no cores profile, although
the code's own TOOL_CONFIGS table declares spades as 32GB/16 cores (the
megahit job carries the same constant 16GB override): line 430 applies
the same override in both branches instead of a branch-dependent
one. -/
theorem assembler_profile_hardcoded_16GB :
    (∃ j ∈ create_workflow [samplePaired] spadesConfig,
      j.tool = "spades" ∧
      j.profiles = [("pegasus", "memory", "16GB")] ∧
      "-t" ∈ j.args ∧ "16" ∈ j.args) ∧
    ("spades", "32GB", 16) ∈ TOOL_CONFIGS ∧
    (∃ j ∈ create_workflow [samplePaired] defaultConfig,
      j.tool = "megahit" ∧
      j.profiles = [("pegasus", "memory", "16GB")]) ∧
    ("megahit", "16GB", 8) ∈ TOOL_CONFIGS := by
  decide

/-- C3 counterexample: with two samples both named s1 the assembly does
fail and return no graph, but not with a DuplicateSampleId error
referencing the id: the Pegasus `add_inputs` loop of the multiqc job
raises its generic DuplicateError when the repeated sample's first QC
artifact name, s1_R1_fastqc.zip, is added a second time; no
DuplicateSampleId check exists anywhere in the code. -/
theorem duplicate_sample_id_raises_cex :
    create_workflowE [samplePaired, samplePairedDup] defaultConfig =
      Except.error ("DuplicateError: " ++ "s1_R1_fastqc.zip") := by
  rfl

/-- C3 (amended): for every input sample list in which two samples
share an id (the ids are not pairwise distinct) and every
configuration, `create_workflow` fails and returns no graph — the
failure being the Pegasus API's generic DuplicateError, raised when the
repeated sample's QC artifact name is added to the multiqc aggregation
job a second time, rather than a dedicated DuplicateSampleId error
referencing the id. -/
theorem duplicate_sample_id_raises (samples : List Sample)
    (cfg : PipelineConfig) (h : ¬ (samples.map Sample.id).Nodup) :
    ∃ e, create_workflowE samples cfg =
      Except.error ("DuplicateError: " ++ e) := by
  obtain ⟨e, he⟩ := addInputsList_error_of_not_nodup
    (allQcFiles cfg samples)
    { tool := "multiqc",
      args := [".", "-o", "multiqc_output", "--force"],
      inputs := [],
      outputs := [("multiqc_report.html", true),
                  ("multiqc_data.json", true)],
      profiles := [] }
    (not_nodup_allQcFiles_of_dup_ids cfg samples h)
  exact ⟨e, by rw [create_workflowE, multiqcJobE, he]; rfl⟩

/-- C3 witness: the duplicate-id failure instantiated at the two
s1-named samples under the default configuration. -/
theorem duplicate_sample_id_raises_witness :
    ∃ e, create_workflowE [samplePaired, samplePairedDup]
        defaultConfig = Except.error ("DuplicateError: " ++ e) :=
  duplicate_sample_id_raises [samplePaired, samplePairedDup]
    defaultConfig (by decide)

/-- C4 counterexample: the scenario (one single-end sample, megahit,
skipTaxonomy and skipAnnotation, binning and fastqc enabled) yields 8
per-sample JobNodes — fastqc, fastp, megahit, quast, prodigal, the two
metabat2 jobs and checkm2 — not 7, hence 9 jobs in total with
multiqc. -/
theorem scenario_single_end_count_cex :
    (sampleJobs configC4 sampleSingle).length = 8 ∧
    ¬(sampleJobs configC4 sampleSingle).length = 7 ∧
    (create_workflow [sampleSingle] configC4).length = 9 := by
  decide

/-- C4 (amended): in that scenario the graph has exactly 8 JobNodes for
the sample plus 1 multiqc (9 in total, in the stated stage order), no
gtdbtk or prokka JobNodes, and the assembler JobNode has exactly one
read input. -/
theorem scenario_single_end_shape :
    (create_workflow [sampleSingle] configC4).map Job.tool =
      ["fastqc", "fastp", "megahit", "quast", "prodigal", "metabat2",
       "metabat2", "checkm2", "multiqc"] ∧
    (create_workflow [sampleSingle] configC4).countP
      (fun j => j.tool == "gtdbtk") = 0 ∧
    (create_workflow [sampleSingle] configC4).countP
      (fun j => j.tool == "prokka") = 0 ∧
    (∃ ja ∈ create_workflow [sampleSingle] configC4,
      ja.tool = "megahit" ∧
      ja.inputs = ["s1_trimmed_R1.fastq.gz"]) := by
  decide

/-- C5: whenever binning and taxonomy are both enabled, each sample's
gtdbtk JobNode consumes both the bins artifact and the checkm2 quality
report, so a dependency edge from the checkm2 JobNode to the gtdbtk
JobNode exists. -/
theorem gtdbtk_consumes_bins_and_checkm2_report (samples : List Sample)
    (cfg : PipelineConfig) (s : Sample) (hs : s ∈ samples)
    (hb : cfg.skip_binning = false) (ht : cfg.skip_taxonomy = false) :
    ∃ jc ∈ create_workflow samples cfg,
      ∃ jg ∈ create_workflow samples cfg,
        jc.tool = "checkm2" ∧ jg.tool = "gtdbtk" ∧
        (s.id ++ "_bins") ∈ jg.inputs ∧
        (s.id ++ "_checkm2_quality.tsv") ∈ jg.inputs ∧
        (s.id ++ "_checkm2_quality.tsv") ∈ outputNames jc ∧
        Edge jc jg := by
  obtain ⟨jc, hjc, jg, hjg, h1, h2, h3, h4, h5⟩ :=
    sampleJobs_gtdbtk_mem cfg s hb ht
  exact ⟨jc, mem_create_workflow_of_mem_sampleJobs hs hjc,
    jg, mem_create_workflow_of_mem_sampleJobs hs hjg,
    h1, h2, h3, h4, h5, ⟨s.id ++ "_checkm2_quality.tsv", h5, h4⟩⟩

/-- C5 witness: the checkm2-to-gtdbtk edge for one paired-end sample
under the default configuration. -/
theorem gtdbtk_consumes_bins_and_checkm2_report_witness :
    ∃ jc ∈ create_workflow [samplePaired] defaultConfig,
      ∃ jg ∈ create_workflow [samplePaired] defaultConfig,
        jc.tool = "checkm2" ∧ jg.tool = "gtdbtk" ∧
        (samplePaired.id ++ "_bins") ∈ jg.inputs ∧
        (samplePaired.id ++ "_checkm2_quality.tsv") ∈ jg.inputs ∧
        (samplePaired.id ++ "_checkm2_quality.tsv") ∈ outputNames jc ∧
        Edge jc jg :=
  gtdbtk_consumes_bins_and_checkm2_report [samplePaired] defaultConfig
    samplePaired (List.mem_singleton.mpr rfl) rfl rfl

/-- C6: with skipBinning set, the generated graph contains zero
checkm2, gtdbtk and prokka JobNodes, whatever the taxonomy and
annotation flags are; `create_workflow` is total, so no error is raised
for those flags. -/
theorem skip_binning_no_bin_stage_jobs (samples : List Sample)
    (cfg : PipelineConfig) (h : cfg.skip_binning = true) :
    (create_workflow samples cfg).countP isBinStageJob = 0 := by
  have hflat : ∀ ss : List Sample,
      (ss.flatMap (sampleJobs cfg)).countP isBinStageJob = 0 := by
    intro ss
    induction ss with
    | nil => rfl
    | cons s rest ih =>
        rw [List.flatMap_cons, List.countP_append, ih,
          sampleJobs_skip_binning cfg s h]
  simp only [create_workflow, List.countP_append, hflat]
  rfl

/-- C6 witness: binning skipped and both sub-stage flags left enabled,
for one paired-end sample. -/
theorem skip_binning_no_bin_stage_jobs_witness :
    (create_workflow [samplePaired] skipBinningConfig).countP
      isBinStageJob = 0 :=
  skip_binning_no_bin_stage_jobs [samplePaired] skipBinningConfig rfl

/-- C7 counterexample: a sample not flagged single-end whose fastq_2
field is empty is still built in paired mode — its fastp job gets the
paired arguments -I and -O and the declared reverse-read input — so the
claim that such a sample is treated as single-end is false. -/
theorem missing_reverse_read_cex :
    sampleNoR2.single_end = false ∧ sampleNoR2.fastq_2 = "" ∧
    ∃ j ∈ create_workflow [sampleNoR2] defaultConfig,
      j.tool = "fastp" ∧ "-I" ∈ j.args ∧ "-O" ∈ j.args ∧
      "s1_R2.fastq.gz" ∈ j.inputs := by
  decide

/-- C7 (amended): `create_workflow` decides paired mode from the
single_end flag alone; every sample not flagged single-end is treated
as paired-end regardless of its reverse-read field: the reverse-read
artifact is an input of its fastp JobNode, whose arguments include
-I and -O, and its assembler JobNode takes the trimmed reverse read with
the -2 paired-form argument.  No error is raised. -/
theorem not_single_end_treated_as_paired (samples : List Sample)
    (cfg : PipelineConfig) (s : Sample) (hs : s ∈ samples)
    (h : s.single_end = false) :
    (∃ jf ∈ create_workflow samples cfg, jf.tool = "fastp" ∧
      "-I" ∈ jf.args ∧ "-O" ∈ jf.args ∧
      (s.id ++ "_R2.fastq.gz") ∈ jf.inputs) ∧
    (∃ ja ∈ create_workflow samples cfg,
      (ja.tool = "megahit" ∨ ja.tool = "spades") ∧ "-2" ∈ ja.args ∧
      (s.id ++ "_trimmed_R2.fastq.gz") ∈ ja.inputs) := by
  obtain ⟨⟨jf, hjf, hf⟩, ⟨ja, hja, ha⟩⟩ := sampleJobs_paired_mode cfg s h
  exact ⟨⟨jf, mem_create_workflow_of_mem_sampleJobs hs hjf, hf⟩,
    ⟨ja, mem_create_workflow_of_mem_sampleJobs hs hja, ha⟩⟩

/-- C7 witness: the paired treatment of the sample with an empty
fastq_2 field, under the default configuration. -/
theorem not_single_end_treated_as_paired_witness :
    (∃ jf ∈ create_workflow [sampleNoR2] defaultConfig,
      jf.tool = "fastp" ∧ "-I" ∈ jf.args ∧ "-O" ∈ jf.args ∧
      (sampleNoR2.id ++ "_R2.fastq.gz") ∈ jf.inputs) ∧
    (∃ ja ∈ create_workflow [sampleNoR2] defaultConfig,
      (ja.tool = "megahit" ∨ ja.tool = "spades") ∧ "-2" ∈ ja.args ∧
      (sampleNoR2.id ++ "_trimmed_R2.fastq.gz") ∈ ja.inputs) :=
  not_single_end_treated_as_paired [sampleNoR2] defaultConfig sampleNoR2
    (List.mem_singleton.mpr rfl) rfl

/-- C8 counterexample: on the empty sample list `create_workflow` does
not fail; it returns a graph with exactly one JobNode — the multiqc job
with an empty input list. -/
theorem empty_sample_set_cex :
    (create_workflow [] defaultConfig).length = 1 ∧
    ∃ j ∈ create_workflow [] defaultConfig,
      j.tool = "multiqc" ∧ j.inputs = [] := by
  decide

/-- C8 (amended): for the empty sample list `create_workflow` raises no
EmptySampleSet error under any configuration: the returned graph is
exactly the single multiqc aggregation job with an empty input list
(the CLI driver exits separately on an empty parse result, before
calling `create_workflow`). -/
theorem empty_sample_set_returns_multiqc_only (cfg : PipelineConfig) :
    create_workflow [] cfg = [multiqcJob []] := rfl

/-- C9: graph construction is deterministic — two invocations of
`create_workflow` on identical inputs yield identical graphs: the same
job list, hence the same job names, arguments and artifact names, and
the same derived edge set. -/
theorem assemble_deterministic (samples1 samples2 : List Sample)
    (cfg1 cfg2 : PipelineConfig) (hs : samples1 = samples2)
    (hc : cfg1 = cfg2) :
    create_workflow samples1 cfg1 = create_workflow samples2 cfg2 ∧
    (create_workflow samples1 cfg1).map Job.tool =
      (create_workflow samples2 cfg2).map Job.tool ∧
    (create_workflow samples1 cfg1).map Job.args =
      (create_workflow samples2 cfg2).map Job.args ∧
    (create_workflow samples1 cfg1).map outputNames =
      (create_workflow samples2 cfg2).map outputNames ∧
    edgeList (create_workflow samples1 cfg1) =
      edgeList (create_workflow samples2 cfg2) := by
  subst hs; subst hc
  exact ⟨rfl, rfl, rfl, rfl, rfl⟩

/-- C9 witness: determinism instantiated at one paired-end sample and
the default configuration. -/
theorem assemble_deterministic_witness :
    create_workflow [samplePaired] defaultConfig =
      create_workflow [samplePaired] defaultConfig ∧
    (create_workflow [samplePaired] defaultConfig).map Job.tool =
      (create_workflow [samplePaired] defaultConfig).map Job.tool ∧
    (create_workflow [samplePaired] defaultConfig).map Job.args =
      (create_workflow [samplePaired] defaultConfig).map Job.args ∧
    (create_workflow [samplePaired] defaultConfig).map outputNames =
      (create_workflow [samplePaired] defaultConfig).map outputNames ∧
    edgeList (create_workflow [samplePaired] defaultConfig) =
      edgeList (create_workflow [samplePaired] defaultConfig) :=
  assemble_deterministic [samplePaired] [samplePaired] defaultConfig
    defaultConfig rfl rfl

/-- C10: a parsed sample is single-end exactly when the row's
single_end value (defaulting to false when the column is absent),
lowercased, equals the exact string true; every returned sample has a
non-empty id and forward-read field; and on a concrete sheet the rows
with values TRUE and true parse single-end, the rows with 1, yes,
TRUE-with-trailing-space, a missing column or an empty value parse
paired-end, and the rows with an empty id or empty forward read are
silently dropped. -/
theorem parse_samplesheet_single_end_rule :
    (∀ r : Row, (parseRow r).single_end =
      (strLower (r.single_end.getD "false") == "true")) ∧
    (∀ rows : List Row,
      (parse_samplesheet rows).all
        (fun s => s.id != "" && s.fastq_1 != "") = true) ∧
    (parse_samplesheet [rowTrue, rowUpper, rowOne, rowYes, rowTrailing,
        rowMissing, rowEmptySE, rowNoId, rowNoFq]).map
      (fun s => (s.id, s.single_end)) =
      [("a", true), ("b", true), ("c", false), ("d", false),
       ("e", false), ("f", false), ("g", false)] := by
  refine ⟨fun r => rfl, fun rows => ?_, by decide⟩
  rw [List.all_eq_true]
  intro s hs
  have hs' : s ∈ (rows.map parseRow).filter
      (fun s => s.id != "" && s.fastq_1 != "") := hs
  exact (List.mem_filter.mp hs').2

end MagWorkflow
